import Mathlib

/-!
Shallow embedding of the price-target provider adapters of the
GamestonkTerminal / OpenBB platform repository:

* `src/openbb_platform/providers/benzinga/openbb_benzinga/models/price_target.py`
* `src/openbb_platform/providers/fmp/openbb_fmp/models/price_target.py`

Raw vendor JSON records are embedded as association lists of string keys and
`Val` values.  Query-parameter objects are Lean structures; Python mutation of
a query object (FMP writes `query.symbol` inside its extraction loop) is made
explicit by returning the post-state of the query from the extraction step.
Dates are embedded by their epoch day count and datetimes by their epoch
second count (Unix time has no leap seconds, so `fromtimestamp(t, UTC)` is
midnight-aligned exactly when `t % 86400 = 0`).  Fallible steps (pydantic
validation, the empty-data check) return `Except`.
-/

set_option autoImplicit false

/-- Embedded Python/JSON value as it appears in a raw provider record or in a
normalized record field. `null` is Python `None`; `date`/`datetime` carry the
epoch day count resp. the epoch second count (UTC). -/
inductive Val where
  | null
  | str (s : String)
  | int (n : Int)
  | list (vs : List Val)
  | date (days : Int)
  | datetime (secs : Int)

/-- `true` exactly for a bare-date value. -/
def Val.isDate : Val → Bool
  | Val.date _ => true
  | _ => false

/-- Python `v == ""`: true exactly for the empty-string value. -/
def Val.isEmptyStr : Val → Bool
  | Val.str s => s == ""
  | _ => false

/-- A raw JSON record: an association list from keys to values (Python dict). -/
abbrev Record := List (String × Val)

/-- Python `dict.get(k)`: the first value stored under `k`, or absent. -/
def Record.get (r : Record) (k : String) : Option Val :=
  (r.find? (fun kv => kv.1 == k)).map (fun kv => kv.2)

/-- Python `dict.pop(k, None)`: the record with key `k` removed. -/
def Record.eraseKey (r : Record) (k : String) : Record :=
  r.filter (fun kv => kv.1 != k)

/-- Python `str.split(sep)` for a one-character separator, on the character
list: splits at every separator occurrence, keeping empty chunks
(`"".split(",") = [""]`, `"a,".split(",") = ["a", ""]`). -/
def pySplitAux (sep : Char) : List Char → List Char → List (List Char)
  | [], cur => [cur.reverse]
  | c :: rest, cur =>
    if c = sep then cur.reverse :: pySplitAux sep rest []
    else pySplitAux sep rest (c :: cur)

/-- Python `str.split(sep)` for a one-character separator. -/
def pySplit (sep : Char) (s : String) : List String :=
  (pySplitAux sep s.data []).map (fun cs => String.mk cs)

/-! ## Benzinga: `COVERAGE_DICT` and the query-parameter schema -/

/-- The eleven supported Benzinga `action` codes: the keys of `COVERAGE_DICT`
and the `Literal` alternatives of `BenzingaPriceTargetQueryParams.action`. -/
inductive ActionCode where
  | downgrades
  | maintains
  | reinstates
  | reiterates
  | upgrades
  | assumes
  | initiates
  | terminates
  | removes
  | suspends
  | firm_dissolved
deriving DecidableEq, Repr

/-- `COVERAGE_DICT`: action code to the provider wire string. -/
def COVERAGE_DICT : ActionCode → String
  | ActionCode.downgrades => "Downgrades"
  | ActionCode.maintains => "Maintains"
  | ActionCode.reinstates => "Reinstates"
  | ActionCode.reiterates => "Reiterates"
  | ActionCode.upgrades => "Upgrades"
  | ActionCode.assumes => "Assumes"
  | ActionCode.initiates => "Initiates Coverage On"
  | ActionCode.terminates => "Terminates Coverage On"
  | ActionCode.removes => "Removes"
  | ActionCode.suspends => "Suspends"
  | ActionCode.firm_dissolved => "Firm Dissolved"

/-- All eleven action codes, in declaration order. -/
def actionList : List ActionCode :=
  [ActionCode.downgrades, ActionCode.maintains, ActionCode.reinstates, ActionCode.reiterates,
   ActionCode.upgrades, ActionCode.assumes, ActionCode.initiates, ActionCode.terminates,
   ActionCode.removes, ActionCode.suspends, ActionCode.firm_dissolved]

/-- Pydantic validation of the `action` field against its `Literal` type:
the supported code strings parse, everything else is rejected. -/
def decodeAction (s : String) : Option ActionCode :=
  if s = "downgrades" then some ActionCode.downgrades
  else if s = "maintains" then some ActionCode.maintains
  else if s = "reinstates" then some ActionCode.reinstates
  else if s = "reiterates" then some ActionCode.reiterates
  else if s = "upgrades" then some ActionCode.upgrades
  else if s = "assumes" then some ActionCode.assumes
  else if s = "initiates" then some ActionCode.initiates
  else if s = "terminates" then some ActionCode.terminates
  else if s = "removes" then some ActionCode.removes
  else if s = "suspends" then some ActionCode.suspends
  else if s = "firm_dissolved" then some ActionCode.firm_dissolved
  else none

/-- Recover the action code from a wire string by searching `COVERAGE_DICT`
by value. -/
def wireDecode (s : String) : Option ActionCode :=
  actionList.find? (fun a => COVERAGE_DICT a == s)

/-- `BenzingaPriceTargetQueryParams.convert_action` (mode="after"): the
validated code is translated to the wire string, `None` stays `None`. -/
def convert_action : Option ActionCode → Option String
  | none => none
  | some a => some (COVERAGE_DICT a)

/-- The possible parsed shapes of the `updated` query field
(`Optional[Union[dateType, int]]`): a datetime (embedded by the UTC epoch
seconds its components denote once `tzinfo` is replaced with UTC), a bare
date (epoch days), or an epoch integer. -/
inductive UpdatedIn where
  | dt (secs : Int)
  | d (days : Int)
  | epoch (n : Int)
deriving DecidableEq, Repr

/-- `BenzingaPriceTargetQueryParams.date_validate` (mode="after"): a datetime
becomes its UTC timestamp, a date becomes the timestamp of its midnight
(`datetime.combine(v, time(), tzinfo=timezone.utc)`), and anything else —
including an epoch integer, which is neither a `datetime` nor a `date`
instance — falls through to `return None`. -/
def date_validate : Option UpdatedIn → Option Int
  | some (UpdatedIn.dt secs) => some secs
  | some (UpdatedIn.d days) => some (days * 86400)
  | some (UpdatedIn.epoch _) => none
  | none => none

/-- The raw shape of a list-or-string query field
(`Optional[Union[List[str], str]]`). -/
inductive ListOrStr where
  | str (s : String)
  | list (l : List String)
deriving DecidableEq, Repr

/-- `BenzingaPriceTargetQueryParams.convert_list` (mode="before"): a string
passes through, a non-empty list is comma-joined, an empty list becomes
`None`. -/
def convert_list : Option ListOrStr → Option String
  | none => none
  | some (ListOrStr.str s) => some s
  | some (ListOrStr.list l) =>
    if l = [] then none else some (String.intercalate "," l)

/-- The validated `BenzingaPriceTargetQueryParams` object.  `symbol` and
`limit` come from the shared `PriceTargetQueryParams` base class (not under
`src/`); the remaining fields are declared in the Benzinga subclass.
`updated` holds the normalized UTC timestamp, `action` the wire string. -/
structure BzQuery where
  symbol : String
  limit : Option Int
  page : Option Int
  date : Option Int
  start_date : Option Int
  end_date : Option Int
  updated : Option Int
  importance : Option Int
  action : Option String
  analyst_ids : Option String
  firm_ids : Option String
  fields : Option String
deriving DecidableEq, Repr

/-- The raw user-supplied parameter mapping for the Benzinga query, before
validation.  Optional fields default as in the source (`page` defaults to 0,
the rest to `None`); `limit` defaults to 200 per the shared base class. -/
structure BzRawParams where
  symbol : String
  limit : Option Int := some 200
  page : Option Int := some 0
  date : Option Int := none
  start_date : Option Int := none
  end_date : Option Int := none
  updated : Option UpdatedIn := none
  importance : Option Int := none
  action : Option String := none
  analyst_ids : Option ListOrStr := none
  firm_ids : Option ListOrStr := none
  fields : Option ListOrStr := none
deriving Repr

/-- Pydantic validation of the raw `action` parameter against the `Literal`
type of `BenzingaPriceTargetQueryParams.action`: an unknown code is a
validation error. -/
def checked_action : Option String → Except String (Option ActionCode)
  | none => Except.ok none
  | some s =>
    match decodeAction s with
    | some a => Except.ok (some a)
    | none => Except.error ("validation error: action: unexpected value " ++ s)

/-- `BenzingaPriceTargetFetcher.transform_query`: constructs
`BenzingaPriceTargetQueryParams(**params)`.  Pydantic validates the `action`
value against its `Literal` type (an unknown code is a validation error and
no query object is produced), then the field validators run:
`convert_action`, `date_validate` and `convert_list`. -/
def bz_transform_query (p : BzRawParams) : Except String BzQuery :=
  match checked_action p.action with
  | Except.error e => Except.error e
  | Except.ok act =>
    Except.ok
      { symbol := p.symbol
        limit := p.limit
        page := p.page
        date := p.date
        start_date := p.start_date
        end_date := p.end_date
        updated := date_validate p.updated
        importance := p.importance
        action := convert_action act
        analyst_ids := convert_list p.analyst_ids
        firm_ids := convert_list p.firm_ids
        fields := convert_list p.fields }

/-! ## Benzinga: extraction -/

/-- `openbb_core.provider.utils.errors.EmptyDataError`. -/
inductive EmptyDataError where
  | mk
deriving DecidableEq, Repr

/-- `BenzingaPriceTargetFetcher.aextract_data`.  The awaited result of
`amake_requests(url)` is passed in as `data` (a list of response objects).
The query is returned unchanged as the post-state: the body never assigns to
it.  `if not data: raise EmptyDataError()` fires exactly when the list is
empty; otherwise the step returns `data[0].get("ratings")`, which is absent
(`None`) when the first response object has no `ratings` key — even though
the declared result type is a list of records. -/
def bz_aextract_data (query : BzQuery) (data : List Record) :
    BzQuery × Except EmptyDataError (Option Val) :=
  match data with
  | [] => (query, Except.error EmptyDataError.mk)
  | d :: _ => (query, Except.ok (d.get "ratings"))

/-! ## Benzinga: the data model and `transform_data` -/

/-- `BenzingaPriceTargetData.replace_empty_strings` (model validator,
mode="before"): `{k: None if v == "" else v for k, v in values.items()}`. -/
def replace_empty_strings (values : Record) : Record :=
  values.map (fun kv => (kv.1, if kv.2.isEmptyStr then Val.null else kv.2))

/-- The wire strings of the `Literal` type of
`BenzingaPriceTargetData.action` (alias `action_company`). -/
def actionWireList : List String :=
  ["Downgrades", "Maintains", "Reinstates", "Reiterates", "Upgrades",
   "Assumes", "Initiates Coverage On", "Terminates Coverage On", "Removes",
   "Suspends", "Firm Dissolved"]

/-- Pydantic validation of the `action` data field against its `Literal`
wire strings (the raw value reaches it under the alias `action_company`). -/
def check_action : Option Val → Except String (Option String)
  | none => Except.ok none
  | some Val.null => Except.ok none
  | some (Val.str s) =>
    if s ∈ actionWireList then Except.ok (some s)
    else Except.error "validation error: action_company: unexpected value"
  | some _ => Except.error "validation error: action_company: input type"

/-- Pydantic validation of `importance` against `Literal[0, 1, 2, 3, 4, 5]`. -/
def check_importance : Option Val → Except String (Option Int)
  | none => Except.ok none
  | some Val.null => Except.ok none
  | some (Val.int n) =>
    if 0 ≤ n ∧ n ≤ 5 then Except.ok (some n)
    else Except.error "validation error: importance: unexpected value"
  | some _ => Except.error "validation error: importance: input type"

/-- The body of `BenzingaPriceTargetData.validate_date` (mode="before") on an
integer raw value `t`.  `if v:` is Python truthiness, so `t = 0` falls to
`return v` unconverted; otherwise `datetime.fromtimestamp(t, UTC)` is built
and collapsed to its bare date exactly when its time component is midnight,
i.e. when `t % 86400 = 0`. -/
def validate_date_int (t : Int) : Val :=
  if t ≠ 0 then
    (if t % 86400 = 0 then Val.date (t / 86400) else Val.datetime t)
  else Val.int t

/-- Pydantic coercion of the mode="before" validator output into the
`Optional[datetime]` field `last_updated`: a raw integer is read as epoch
seconds (this is how the unconverted `0` ends up as the epoch datetime); a
non-numeric raw value makes `fromtimestamp` raise inside the validator, which
surfaces as a validation error. -/
def check_last_updated : Option Val → Except String Val
  | none => Except.ok Val.null
  | some Val.null => Except.ok Val.null
  | some (Val.int t) =>
    Except.ok (match validate_date_int t with
      | Val.int u => Val.datetime u
      | v => v)
  | some _ => Except.error "validation error: updated: input type"

/-- The normalized `BenzingaPriceTargetData` record: the typed fields the
claims constrain (`action`, `importance`, `last_updated`), together with the
full empty-string-coerced value mapping the remaining declared fields are
read from (no claim constrains their per-field parsing). -/
structure BzData where
  action : Option String
  importance : Option Int
  last_updated : Val
  values : Record

/-- `BenzingaPriceTargetData.model_validate(item)`: the mode="before" model
validator `replace_empty_strings` runs first, then the per-field validators
and `Literal` checks on the aliased raw keys (`action_company`,
`importance`, `updated`). -/
def bz_model_validate (item : Record) : Except String BzData :=
  let vs := replace_empty_strings item
  match check_action (vs.get "action_company"), check_importance (vs.get "importance"),
      check_last_updated (vs.get "updated") with
  | Except.ok act, Except.ok imp, Except.ok lu =>
    Except.ok { action := act, importance := imp, last_updated := lu, values := vs }
  | Except.error e, _, _ => Except.error e
  | _, Except.error e, _ => Except.error e
  | _, _, Except.error e => Except.error e

/-- The Python `for item in data: ... results.append(f(item))` loop over a
fallible per-item step: items are processed left to right and the first
validation error aborts the whole call. -/
def mapE {α β ε : Type} (f : α → Except ε β) : List α → Except ε (List β)
  | [] => Except.ok []
  | a :: as =>
    match f a with
    | Except.error e => Except.error e
    | Except.ok b =>
      match mapE f as with
      | Except.error e => Except.error e
      | Except.ok bs => Except.ok (b :: bs)

/-- `BenzingaPriceTargetFetcher.transform_data`: each item first drops the
duplicated `url_calendar` field (`item.pop("url_calendar", None)`), then is
validated into a `BenzingaPriceTargetData`. -/
def bz_transform_data (data : List Record) : Except String (List BzData) :=
  mapE (fun item => bz_model_validate (item.eraseKey "url_calendar")) data

/-! ## FMP: query, extraction and data model -/

/-- The validated `FMPPriceTargetQueryParams` object: `symbol` and `limit`
from the shared `PriceTargetQueryParams` base class (not under `src/`), plus
the FMP-specific `with_grade` flag (default `False`). -/
structure FMPQuery where
  symbol : String
  limit : Option Int
  with_grade : Bool
deriving DecidableEq, Repr

/-- Modelled from the spec: `create_url` (`openbb_fmp.utils.helpers`, not
under `src/`) builds the vendor request URL from the API version, the
endpoint, the API key and the query's fields (here `exclude=["limit"]`);
for these claims only the endpoint, key and symbol matter. -/
def create_url (endpoint : String) (apiKey : String) (q : FMPQuery) : String :=
  "https://financialmodelingprep.com/api/v4/" ++ endpoint ++ "?symbol=" ++ q.symbol
    ++ "&apikey=" ++ apiKey

/-- The endpoint chosen by `FMPPriceTargetFetcher.aextract_data`:
`"upgrades-downgrades" if query.with_grade else "price-target"`. -/
def fmp_endpoint (q : FMPQuery) : String :=
  if q.with_grade then "upgrades-downgrades" else "price-target"

/-- The `for symbol in query.symbol.split(",")` loop of
`FMPPriceTargetFetcher.aextract_data`: each iteration assigns
`query.symbol = symbol` (mutating the query object) and appends
`create_url(4, endpoint, api_key, query, exclude=["limit"])` built from the
mutated query.  The state is the pair (current query object, urls so far). -/
def fmp_url_loop (endpoint apiKey : String) :
    List String → FMPQuery × List String → FMPQuery × List String
  | [], st => st
  | s :: rest, (q, urls) =>
    let q2 := { q with symbol := s }
    fmp_url_loop endpoint apiKey rest (q2, urls ++ [create_url endpoint apiKey q2])

/-- Modelled from the spec: `get_data_urls` (`openbb_fmp.utils.helpers`, not
under `src/`) awaits the request URLs together and concatenates the per-URL
result lists in input order; `fetch` stands for one HTTP round trip. -/
def get_data_urls (fetch : String → List Record) (urls : List String) : List Record :=
  (urls.map fetch).flatten

/-- `FMPPriceTargetFetcher.aextract_data`: split the symbol on commas, build
one URL per symbol (mutating `query.symbol` along the way), and fetch them
all.  Returns the post-state of the query object together with the records. -/
def fmp_aextract_data (query : FMPQuery) (apiKey : String)
    (fetch : String → List Record) : FMPQuery × List Record :=
  let st := fmp_url_loop (fmp_endpoint query) apiKey (pySplit ',' query.symbol) (query, [])
  (st.1, get_data_urls fetch st.2)

/-- The request URLs issued by `FMPPriceTargetFetcher.aextract_data`. -/
def fmp_request_urls (query : FMPQuery) (apiKey : String) : List String :=
  (fmp_url_loop (fmp_endpoint query) apiKey (pySplit ',' query.symbol) (query, [])).2

/-- Modelled from the spec: the shared base data model
(`openbb_core` `Data`/`PriceTargetData`, not under `src/`) coerces
empty-string field values to null before typed validation; the
`FMPPriceTargetData` subclass in `src/` declares no such validator itself. -/
def base_replace_empty_strings (values : Record) : Record :=
  values.map (fun kv => (kv.1, if kv.2.isEmptyStr then Val.null else kv.2))

/-- The normalized `FMPPriceTargetData` record.  The claims constrain only
the value mapping, so the record carries the coerced mapping its declared
fields are read from (the `published_date` strptime parsing is not
constrained by any claim and is kept as a type check). -/
structure FMPData where
  values : Record

/-- `FMPPriceTargetData.model_validate(item)`: the spec-modelled base-class
empty-string coercion runs first; `validate_date` then requires the
`publishedDate` raw value, when present and non-null, to be a string
(`strptime` on anything else raises, surfacing as a validation error). -/
def fmp_model_validate (item : Record) : Except String FMPData :=
  let vs := base_replace_empty_strings item
  match vs.get "publishedDate" with
  | none => Except.ok { values := vs }
  | some Val.null => Except.ok { values := vs }
  | some (Val.str _) => Except.ok { values := vs }
  | some _ => Except.error "validation error: publishedDate: input type"

/-- The per-item key rename of `FMPPriceTargetFetcher.transform_data`:
`{k if k != "analystCompany" else "analyst_firm": v for k, v in item.items()}`. -/
def renameAnalyst (item : Record) : Record :=
  item.map (fun kv => (if kv.1 = "analystCompany" then "analyst_firm" else kv.1, kv.2))

/-- `FMPPriceTargetFetcher.transform_data`: rename `analystCompany` in each
item, then validate it into an `FMPPriceTargetData`. -/
def fmp_transform_data (data : List Record) : Except String (List FMPData) :=
  mapE (fun item => fmp_model_validate (renameAnalyst item)) data

/-! ## Shared concrete objects for closed statements -/

/-- A concrete validated Benzinga query (all optional fields at their
defaults). -/
def bzQuery0 : BzQuery :=
  { symbol := "AAPL", limit := some 200, page := some 0, date := none,
    start_date := none, end_date := none, updated := none, importance := none,
    action := none, analyst_ids := none, firm_ids := none, fields := none }

/-- A concrete validated FMP query carrying two comma-separated symbols. -/
def fmpQuery0 : FMPQuery :=
  { symbol := "AAPL,MSFT", limit := some 200, with_grade := false }

/-! ## Helper lemmas -/

theorem pySplitAux_ne_nil (sep : Char) :
    ∀ (l cur : List Char), pySplitAux sep l cur ≠ [] := by
  intro l
  induction l with
  | nil => intro cur; simp [pySplitAux]
  | cons c rest ih =>
    intro cur
    by_cases hc : c = sep
    · simp [pySplitAux, hc]
    · simpa [pySplitAux, hc] using ih (c :: cur)

theorem pySplit_ne_nil (sep : Char) (s : String) : pySplit sep s ≠ [] := by
  intro h
  exact pySplitAux_ne_nil sep s.data [] (List.map_eq_nil_iff.mp h)

theorem mapE_ok {α β ε : Type} (f : α → Except ε β) :
    ∀ (as : List α) (bs : List β), mapE f as = Except.ok bs →
      bs.length = as.length ∧
      ∀ i (h1 : i < as.length) (h2 : i < bs.length),
        f (as.get ⟨i, h1⟩) = Except.ok (bs.get ⟨i, h2⟩) := by
  intro as
  induction as with
  | nil =>
    intro bs h
    simp only [mapE] at h
    cases h
    exact ⟨rfl, fun i h1 _ => absurd h1 (Nat.not_lt_zero i)⟩
  | cons a as ih =>
    intro bs h
    simp only [mapE] at h
    cases hfa : f a with
    | error e => rw [hfa] at h; exact Except.noConfusion h
    | ok b =>
      rw [hfa] at h
      cases hrest : mapE f as with
      | error e => rw [hrest] at h; exact Except.noConfusion h
      | ok bs2 =>
        rw [hrest] at h
        cases h
        obtain ⟨hlen, hpt⟩ := ih bs2 hrest
        refine ⟨by simp [hlen], ?_⟩
        intro i h1 h2
        cases i with
        | zero => simpa using hfa
        | succ j =>
          simpa using hpt j (Nat.lt_of_succ_lt_succ h1) (Nat.lt_of_succ_lt_succ h2)

theorem fmp_url_loop_urls (e k : String) :
    ∀ (syms : List String) (q : FMPQuery) (urls : List String),
      (fmp_url_loop e k syms (q, urls)).2 =
        urls ++ syms.map (fun s => create_url e k { q with symbol := s }) := by
  intro syms
  induction syms with
  | nil => intro q urls; simp [fmp_url_loop]
  | cons s rest ih =>
    intro q urls
    simp only [fmp_url_loop]
    rw [ih]
    simp

theorem fmp_url_loop_query (e k : String) :
    ∀ (syms : List String) (s : String) (q : FMPQuery) (urls : List String),
      (fmp_url_loop e k (s :: syms) (q, urls)).1 =
        { q with symbol := (s :: syms).getLastD "x" } := by
  intro syms
  induction syms with
  | nil => intro s q urls; simp [fmp_url_loop]
  | cons s2 rest ih =>
    intro s q urls
    have h1 : fmp_url_loop e k (s :: s2 :: rest) (q, urls) =
        fmp_url_loop e k (s2 :: rest) ({ q with symbol := s },
          urls ++ [create_url e k { q with symbol := s }]) := rfl
    rw [h1, ih s2 { q with symbol := s }]
    simp [List.getLastD_cons]

theorem replace_empty_strings_no_empty (r : Record) (k : String) (v : Val)
    (h : (k, v) ∈ replace_empty_strings r) : v.isEmptyStr = false := by
  simp only [replace_empty_strings, List.mem_map] at h
  obtain ⟨kv, _, hkv⟩ := h
  have hv : (if kv.2.isEmptyStr then Val.null else kv.2) = v := congrArg Prod.snd hkv
  by_cases he : kv.2.isEmptyStr
  · rw [if_pos he] at hv
    rw [← hv]
    rfl
  · rw [if_neg he] at hv
    rw [← hv]
    simpa using he

theorem replace_empty_strings_get (r : Record) (k : String)
    (h : r.get k = some (Val.str "")) :
    (replace_empty_strings r).get k = some Val.null := by
  unfold Record.get at h ⊢
  unfold replace_empty_strings
  rw [List.find?_map]
  have hp : ((fun kv : String × Val => kv.1 == k) ∘
      (fun kv : String × Val => (kv.1, if kv.2.isEmptyStr then Val.null else kv.2)))
      = fun kv : String × Val => kv.1 == k := rfl
  rw [hp]
  cases hf : List.find? (fun kv : String × Val => kv.1 == k) r with
  | none =>
    rw [hf] at h
    exact Option.noConfusion h
  | some kv =>
    rw [hf] at h
    have hv : kv.2 = Val.str "" := Option.some.inj h
    simp [hv, Val.isEmptyStr]

theorem base_replace_eq : base_replace_empty_strings = replace_empty_strings := rfl

theorem bz_model_validate_values (item : Record) (d : BzData)
    (h : bz_model_validate item = Except.ok d) :
    d.values = replace_empty_strings item := by
  unfold bz_model_validate at h
  dsimp only at h
  split at h
  · cases h
    rfl
  · exact Except.noConfusion h
  · exact Except.noConfusion h
  · exact Except.noConfusion h

theorem fmp_model_validate_values (item : Record) (d : FMPData)
    (h : fmp_model_validate item = Except.ok d) :
    d.values = base_replace_empty_strings item := by
  unfold fmp_model_validate at h
  dsimp only at h
  split at h
  · cases h
    rfl
  · cases h
    rfl
  · cases h
    rfl
  · exact Except.noConfusion h

/-! ## Claims -/

/-- C1, counterexample: a non-empty upstream payload whose single response
object carries an empty `ratings` list has zero ratings, yet the Benzinga
extraction step does not raise `EmptyDataError`: it returns the empty list
of raw records. -/
theorem C1_counterexample :
    (bz_aextract_data bzQuery0 [[("ratings", Val.list [])]]).2 =
      Except.ok (some (Val.list [])) ∧
    (bz_aextract_data bzQuery0 [[("ratings", Val.list [])]]).2 ≠
      Except.error EmptyDataError.mk :=
  ⟨rfl, fun h => Except.noConfusion h⟩

/-- C1 (amended): the Benzinga extraction step raises `EmptyDataError`
exactly when the awaited payload list itself is empty; a non-empty payload
is never an error — the step returns whatever `data[0].get("ratings")`
yields, so a payload carrying zero ratings in a non-empty envelope comes
back as the empty list (or as the absent value), not as an error. -/
theorem C1_empty_data_error (q : BzQuery) (data : List Record) :
    (data = [] → (bz_aextract_data q data).2 = Except.error EmptyDataError.mk) ∧
    (∀ (d : Record) (rest : List Record), data = d :: rest →
      (bz_aextract_data q data).2 = Except.ok (d.get "ratings")) := by
  constructor
  · intro h
    subst h
    rfl
  · intro d rest h
    subst h
    rfl

/-- Witness for C1: at the empty payload the error fires; at a one-element
payload with an empty ratings list the result is the empty list. -/
theorem C1_empty_data_error_witness :
    (bz_aextract_data bzQuery0 []).2 = Except.error EmptyDataError.mk ∧
    (bz_aextract_data bzQuery0 [[("ratings", Val.list [Val.null])]]).2 =
      Except.ok (some (Val.list [Val.null])) :=
  ⟨(C1_empty_data_error bzQuery0 []).1 rfl,
   (C1_empty_data_error bzQuery0 [[("ratings", Val.list [Val.null])]]).2
     [("ratings", Val.list [Val.null])] [] rfl⟩

/-- C3: the code discards an epoch-integer `updated` input.  `date_validate`
normalizes a datetime and a date to the epoch integer, but an integer input
matches neither `isinstance` branch and falls through to `return None`, so
the constructed query carries `updated = None` — contrary to the claim and
to the field's own description ("The date can be a date string or a Unix
timestamp"). -/
theorem C3_epoch_discarded :
    date_validate (some (UpdatedIn.epoch 1700000000)) = none ∧
    date_validate (some (UpdatedIn.d 19723)) = some (19723 * 86400) ∧
    date_validate (some (UpdatedIn.dt 1700000000)) = some 1700000000 ∧
    (bz_transform_query { symbol := "AAPL", updated := some (UpdatedIn.epoch 1700000000) }).map
      (fun q => q.updated) = Except.ok none :=
  ⟨rfl, rfl, rfl, rfl⟩

/-- C5: constructing a query with a supported action code yields exactly the
wire string of `COVERAGE_DICT`, the wire string determines the code
(searching `COVERAGE_DICT` by value recovers it), and the mapping is
injective. -/
theorem C5_action_roundtrip (a b : ActionCode) :
    convert_action (some a) = some (COVERAGE_DICT a) ∧
    wireDecode (COVERAGE_DICT a) = some a ∧
    (COVERAGE_DICT a = COVERAGE_DICT b → a = b) := by
  refine ⟨rfl, ?_, ?_⟩
  · cases a <;> decide
  · cases a <;> cases b <;> decide

/-- Witness for C5 at the `initiates` code. -/
theorem C5_action_roundtrip_witness :
    convert_action (some ActionCode.initiates) = some "Initiates Coverage On" ∧
    wireDecode "Initiates Coverage On" = some ActionCode.initiates ∧
    ActionCode.initiates = ActionCode.initiates :=
  ⟨(C5_action_roundtrip ActionCode.initiates ActionCode.initiates).1,
   (C5_action_roundtrip ActionCode.initiates ActionCode.initiates).2.1,
   (C5_action_roundtrip ActionCode.initiates ActionCode.initiates).2.2 rfl⟩

/-- C10: for a non-empty payload whose first response object has no
`ratings` key, the Benzinga extraction step neither raises the empty-data
error nor returns a list of records: `data[0].get("ratings")` is the absent
value `None`, despite the declared `List[Dict]` result type. -/
theorem C10_missing_ratings (q : BzQuery) (d : Record) (rest : List Record)
    (h : d.get "ratings" = none) :
    (bz_aextract_data q (d :: rest)).2 = Except.ok none ∧
    (bz_aextract_data q (d :: rest)).2 ≠ Except.error EmptyDataError.mk := by
  constructor
  · show Except.ok (d.get "ratings") = Except.ok none
    rw [h]
  · intro hc
    exact Except.noConfusion hc

/-- Witness for C10: a payload whose single response object lacks the
`ratings` key. -/
theorem C10_missing_ratings_witness :
    (bz_aextract_data bzQuery0 [[("x", Val.int 1)]]).2 = Except.ok none ∧
    (bz_aextract_data bzQuery0 [[("x", Val.int 1)]]).2 ≠
      Except.error EmptyDataError.mk :=
  C10_missing_ratings bzQuery0 [("x", Val.int 1)] [] rfl

/-- C2, counterexample: after the FMP extraction step runs on a query whose
symbol field holds two comma-separated symbols, the query object's symbol
field has been overwritten with the last symbol — the query is not read-only
after construction. -/
theorem C2_counterexample :
    ((fmp_aextract_data fmpQuery0 "k" (fun _ => [])).1).symbol = "MSFT" ∧
    fmpQuery0.symbol = "AAPL,MSFT" ∧
    ((fmp_aextract_data fmpQuery0 "k" (fun _ => [])).1).symbol ≠ fmpQuery0.symbol := by
  refine ⟨rfl, rfl, ?_⟩
  decide

/-- C2 (amended): the Benzinga extraction step leaves every field of its
query unchanged, but the FMP extraction step reassigns the query's `symbol`
field to the last comma-separated symbol of its original value (every other
field is preserved by the update).  A single-symbol FMP query is therefore
unchanged, a multi-symbol one is mutated. -/
theorem C2_query_mutation (bq : BzQuery) (data : List Record) (q : FMPQuery)
    (apiKey : String) (fetch : String → List Record) :
    (bz_aextract_data bq data).1 = bq ∧
    (fmp_aextract_data q apiKey fetch).1 =
      { q with symbol := (pySplit ',' q.symbol).getLastD "x" } := by
  constructor
  · cases data <;> rfl
  · show (fmp_url_loop (fmp_endpoint q) apiKey (pySplit ',' q.symbol) (q, [])).1 = _
    cases hs : pySplit ',' q.symbol with
    | nil => exact absurd hs (pySplit_ne_nil ',' q.symbol)
    | cons s rest => rw [fmp_url_loop_query (fmp_endpoint q) apiKey rest s q []]

/-- C4: in both normalized data models, every raw field value that was the
empty string is null in the normalized record, and no field of a normalized
record is the empty string. -/
theorem C4_empty_string_null :
    (∀ (item : Record) (d : BzData) (k : String) (v : Val),
      bz_model_validate item = Except.ok d →
        (item.get k = some (Val.str "") → d.values.get k = some Val.null) ∧
        ((k, v) ∈ d.values → v.isEmptyStr = false)) ∧
    (∀ (item : Record) (d : FMPData) (k : String) (v : Val),
      fmp_model_validate item = Except.ok d →
        (item.get k = some (Val.str "") → d.values.get k = some Val.null) ∧
        ((k, v) ∈ d.values → v.isEmptyStr = false)) := by
  constructor
  · intro item d k v hok
    have hv := bz_model_validate_values item d hok
    constructor
    · intro hget
      rw [hv]
      exact replace_empty_strings_get item k hget
    · intro hmem
      rw [hv] at hmem
      exact replace_empty_strings_no_empty item k v hmem
  · intro item d k v hok
    have hv := fmp_model_validate_values item d hok
    rw [base_replace_eq] at hv
    constructor
    · intro hget
      rw [hv]
      exact replace_empty_strings_get item k hget
    · intro hmem
      rw [hv] at hmem
      exact replace_empty_strings_no_empty item k v hmem

/-- Witness for C4: a Benzinga record and an FMP record, each with one
empty-string field, normalize it to null. -/
theorem C4_empty_string_null_witness :
    (Record.get [("notes", Val.null)] "notes" = some Val.null ∧
     Val.null.isEmptyStr = false) ∧
    (Record.get [("newGrade", Val.null)] "newGrade" = some Val.null ∧
     Val.null.isEmptyStr = false) := by
  constructor
  · have h := C4_empty_string_null.1 [("notes", Val.str "")]
      (BzData.mk none none Val.null [("notes", Val.null)]) "notes" Val.null rfl
    exact ⟨h.1 rfl, h.2 (List.Mem.head _)⟩
  · have h := C4_empty_string_null.2 [("newGrade", Val.str "")]
      (FMPData.mk [("newGrade", Val.null)]) "newGrade" Val.null rfl
    exact ⟨h.1 rfl, h.2 (List.Mem.head _)⟩

/-- Step lemma for C6: a nonzero midnight-aligned timestamp collapses to the
bare date in the `last_updated` field. -/
theorem check_last_updated_midnight (t : Int) (ht : t ≠ 0) (hm : t % 86400 = 0) :
    check_last_updated (some (Val.int t)) = Except.ok (Val.date (t / 86400)) := by
  show Except.ok (match validate_date_int t with
    | Val.int u => Val.datetime u
    | v => v) = Except.ok (Val.date (t / 86400))
  unfold validate_date_int
  rw [if_pos ht, if_pos hm]

/-- Step lemma for C6: a nonzero non-midnight timestamp stays a datetime. -/
theorem check_last_updated_other (t : Int) (ht : t ≠ 0) (hm : ¬ t % 86400 = 0) :
    check_last_updated (some (Val.int t)) = Except.ok (Val.datetime t) := by
  show Except.ok (match validate_date_int t with
    | Val.int u => Val.datetime u
    | v => v) = Except.ok (Val.datetime t)
  unfold validate_date_int
  rw [if_pos ht, if_neg hm]

/-- C6, counterexample: the timestamp 0 is midnight-aligned UTC, but `if v:`
treats 0 as absent, so the validator returns it unconverted and the
`Optional[datetime]` field coerces it to the epoch datetime — the normalized
record holds a datetime with a zero time component, not a bare date. -/
theorem C6_counterexample :
    (0 : Int) % 86400 = 0 ∧
    (bz_model_validate [("updated", Val.int 0)]).map (fun d => d.last_updated) =
      Except.ok (Val.datetime 0) ∧
    (Val.datetime 0).isDate = false := by
  refine ⟨by decide, rfl, rfl⟩

/-- C6 (amended): for every nonzero timestamp in the Benzinga raw record's
`updated` field, the normalized record's `last_updated` is the bare date
exactly when the timestamp is midnight-aligned, and the full datetime
otherwise; the zero timestamp is the one midnight-aligned value that instead
yields the epoch datetime. -/
theorem C6_midnight_collapse (t : Int) (ht : t ≠ 0) :
    (t % 86400 = 0 →
      (bz_model_validate [("updated", Val.int t)]).map (fun d => d.last_updated) =
        Except.ok (Val.date (t / 86400))) ∧
    (¬ t % 86400 = 0 →
      (bz_model_validate [("updated", Val.int t)]).map (fun d => d.last_updated) =
        Except.ok (Val.datetime t)) := by
  have hstep : (bz_model_validate [("updated", Val.int t)]).map (fun d => d.last_updated) =
      (check_last_updated (some (Val.int t))).map (fun v => v) := rfl
  constructor
  · intro hm
    rw [hstep, check_last_updated_midnight t ht hm]
    rfl
  · intro hm
    rw [hstep, check_last_updated_other t ht hm]
    rfl

/-- Witness for C6: the midnight-aligned timestamp 86400 yields the bare
date of 1970-01-02, the non-midnight timestamp 90061 stays a datetime. -/
theorem C6_midnight_collapse_witness :
    (bz_model_validate [("updated", Val.int 86400)]).map (fun d => d.last_updated) =
      Except.ok (Val.date (86400 / 86400)) ∧
    (bz_model_validate [("updated", Val.int 90061)]).map (fun d => d.last_updated) =
      Except.ok (Val.datetime 90061) :=
  ⟨(C6_midnight_collapse 86400 (by decide)).1 (by decide),
   (C6_midnight_collapse 90061 (by decide)).2 (by decide)⟩

/-- C7: the FMP extraction step issues exactly one request per
comma-separated symbol of the query — the URLs are built per symbol in input
order — and the returned raw records are the in-order concatenation of the
per-symbol fetch results. -/
theorem C7_one_request_per_symbol (q : FMPQuery) (apiKey : String)
    (fetch : String → List Record) :
    fmp_request_urls q apiKey =
      (pySplit ',' q.symbol).map
        (fun s => create_url (fmp_endpoint q) apiKey { q with symbol := s }) ∧
    (fmp_request_urls q apiKey).length = (pySplit ',' q.symbol).length ∧
    (fmp_aextract_data q apiKey fetch).2 =
      ((pySplit ',' q.symbol).map
        (fun s => fetch (create_url (fmp_endpoint q) apiKey { q with symbol := s }))).flatten := by
  have hurls : fmp_request_urls q apiKey =
      (pySplit ',' q.symbol).map
        (fun s => create_url (fmp_endpoint q) apiKey { q with symbol := s }) := by
    unfold fmp_request_urls
    rw [fmp_url_loop_urls]
    simp
  refine ⟨hurls, by rw [hurls]; simp, ?_⟩
  show get_data_urls fetch
      (fmp_url_loop (fmp_endpoint q) apiKey (pySplit ',' q.symbol) (q, [])).2 = _
  rw [show (fmp_url_loop (fmp_endpoint q) apiKey (pySplit ',' q.symbol) (q, [])).2 =
      fmp_request_urls q apiKey from rfl, hurls]
  unfold get_data_urls
  rw [List.map_map]
  rfl

/-- C8: constructing the Benzinga query from a raw parameter mapping fails
with a validation error — producing no query object — whenever the `action`
value is outside the eleven supported codes, and returns the constructed
query object (with the validators applied) when `action` is absent or
supported. -/
theorem C8_transform_query_validation (p : BzRawParams) (s : String) :
    (p.action = some s → decodeAction s = none →
      bz_transform_query p =
        Except.error ("validation error: action: unexpected value " ++ s)) ∧
    (∀ a : ActionCode, p.action = some s → decodeAction s = some a →
      bz_transform_query p = Except.ok
        { symbol := p.symbol
          limit := p.limit
          page := p.page
          date := p.date
          start_date := p.start_date
          end_date := p.end_date
          updated := date_validate p.updated
          importance := p.importance
          action := some (COVERAGE_DICT a)
          analyst_ids := convert_list p.analyst_ids
          firm_ids := convert_list p.firm_ids
          fields := convert_list p.fields }) ∧
    (p.action = none →
      bz_transform_query p = Except.ok
        { symbol := p.symbol
          limit := p.limit
          page := p.page
          date := p.date
          start_date := p.start_date
          end_date := p.end_date
          updated := date_validate p.updated
          importance := p.importance
          action := none
          analyst_ids := convert_list p.analyst_ids
          firm_ids := convert_list p.firm_ids
          fields := convert_list p.fields }) := by
  refine ⟨?_, ?_, ?_⟩
  · intro hp hd
    simp only [bz_transform_query, checked_action, hp, hd]
  · intro a hp hd
    simp only [bz_transform_query, checked_action, hp, hd]
    rfl
  · intro hp
    simp only [bz_transform_query, checked_action, hp]
    rfl

/-- Witness for C8: the unsupported code `"sideways"` is rejected at
construction time; the supported code `"upgrades"` and the absent action
both construct the query object. -/
theorem C8_transform_query_validation_witness :
    bz_transform_query { symbol := "AAPL", action := some "sideways" } =
      Except.error ("validation error: action: unexpected value " ++ "sideways") ∧
    bz_transform_query { symbol := "AAPL", action := some "upgrades" } =
      Except.ok
        { symbol := "AAPL"
          limit := some 200
          page := some 0
          date := none
          start_date := none
          end_date := none
          updated := none
          importance := none
          action := some "Upgrades"
          analyst_ids := none
          firm_ids := none
          fields := none } ∧
    bz_transform_query { symbol := "AAPL" } =
      Except.ok
        { symbol := "AAPL"
          limit := some 200
          page := some 0
          date := none
          start_date := none
          end_date := none
          updated := none
          importance := none
          action := none
          analyst_ids := none
          firm_ids := none
          fields := none } := by
  refine ⟨?_, ?_, ?_⟩
  · exact (C8_transform_query_validation
      { symbol := "AAPL", action := some "sideways" } "sideways").1 rfl rfl
  · exact (C8_transform_query_validation
      { symbol := "AAPL", action := some "upgrades" } "upgrades").2.1
      ActionCode.upgrades rfl rfl
  · exact (C8_transform_query_validation { symbol := "AAPL" } "x").2.2 rfl

/-- C9: for both providers, when every raw record validates, the
data-transform step returns one normalized record per raw record, in
position: the output length equals the input length and the normalized
record at each index is the validation of the prepared raw record at that
same index. -/
theorem C9_transform_data_pointwise :
    (∀ (data : List Record) (out : List BzData),
      bz_transform_data data = Except.ok out →
        out.length = data.length ∧
        ∀ i (h1 : i < data.length) (h2 : i < out.length),
          bz_model_validate ((data.get ⟨i, h1⟩).eraseKey "url_calendar") =
            Except.ok (out.get ⟨i, h2⟩)) ∧
    (∀ (data : List Record) (out : List FMPData),
      fmp_transform_data data = Except.ok out →
        out.length = data.length ∧
        ∀ i (h1 : i < data.length) (h2 : i < out.length),
          fmp_model_validate (renameAnalyst (data.get ⟨i, h1⟩)) =
            Except.ok (out.get ⟨i, h2⟩)) := by
  constructor
  · intro data out h
    exact mapE_ok _ data out h
  · intro data out h
    exact mapE_ok _ data out h

/-- Witness for C9: a two-record Benzinga input and a one-record FMP input,
all validating, are transformed pointwise. -/
theorem C9_transform_data_pointwise_witness :
    [BzData.mk none none Val.null [("notes", Val.str "hi")],
     BzData.mk none none (Val.datetime 90061) [("updated", Val.int 90061)]].length =
      ([[("notes", Val.str "hi")], [("updated", Val.int 90061)]] : List Record).length ∧
    bz_model_validate (Record.eraseKey [("notes", Val.str "hi")] "url_calendar") =
      Except.ok (BzData.mk none none Val.null [("notes", Val.str "hi")]) ∧
    bz_model_validate (Record.eraseKey [("updated", Val.int 90061)] "url_calendar") =
      Except.ok (BzData.mk none none (Val.datetime 90061) [("updated", Val.int 90061)]) ∧
    [FMPData.mk [("analyst_firm", Val.str "X")]].length =
      ([[("analystCompany", Val.str "X")]] : List Record).length ∧
    fmp_model_validate (renameAnalyst [("analystCompany", Val.str "X")]) =
      Except.ok (FMPData.mk [("analyst_firm", Val.str "X")]) := by
  have hb := C9_transform_data_pointwise.1
    [[("notes", Val.str "hi")], [("updated", Val.int 90061)]]
    [BzData.mk none none Val.null [("notes", Val.str "hi")],
     BzData.mk none none (Val.datetime 90061) [("updated", Val.int 90061)]] rfl
  have hf := C9_transform_data_pointwise.2
    [[("analystCompany", Val.str "X")]]
    [FMPData.mk [("analyst_firm", Val.str "X")]] rfl
  exact ⟨hb.1, hb.2 0 (by decide) (by decide), hb.2 1 (by decide) (by decide),
    hf.1, hf.2 0 (by decide) (by decide)⟩
